import Mathlib

/-!
# Patient Management System — shallow embedding

A Lean embedding of the FastAPI patient-management service
(`main.py` + `util.py`).  The persisted JSON file maps patient-id strings
to record objects; a stored record is a JSON object whose fields may be
present or absent, modelled here by `Option`-valued fields.  Each HTTP
handler is embedded as a function taking the persisted store as an
explicit argument and returning the handler result together with the
store as it is persisted after the call (an `HTTPException` aborts before
any `save_data`, so the store component is unchanged on every error
path).
-/

/-- Errors raised by the handlers (`HTTPException` status classes plus the
pydantic `ValidationError` escaping from `Patient(**existing_patient)`). -/
inductive Err where
  | notFound
  | conflict
  | invalidArgument
  | validationError
deriving Repr, DecidableEq

/-- A stored patient record: a JSON object over the keys the service ever
reads or writes.  `none` means the key is absent from the object.
Numeric JSON values are modelled as rationals. -/
structure StoredPatient where
  id : Option String := none
  name : Option String := none
  city : Option String := none
  age : Option Int := none
  gender : Option String := none
  height : Option ℚ := none
  weight : Option ℚ := none
  bmi : Option ℚ := none
  verdict : Option String := none
deriving Repr, DecidableEq

/-- The persisted collection: an insertion-ordered mapping from id to
record, as a Python `dict` is (association list, unique keys). -/
abbrev Store := List (String × StoredPatient)

/-- `data[k]` lookup: first binding of `k`. -/
def lookupS (st : Store) (k : String) : Option StoredPatient :=
  match st with
  | [] => none
  | (k', v) :: rest => if k' = k then some v else lookupS rest k

/-- `k in data`. -/
def containsS (st : Store) (k : String) : Bool :=
  (lookupS st k).isSome

/-- `data[k] = v` with Python-dict semantics: overwrite in place when the
key is present, append otherwise. -/
def insertS (st : Store) (k : String) (v : StoredPatient) : Store :=
  match st with
  | [] => [(k, v)]
  | (k', v') :: rest =>
    if k' = k then (k', v) :: rest else (k', v') :: insertS rest k v

/-- `del data[k]`. -/
def deleteS (st : Store) (k : String) : Store :=
  match st with
  | [] => []
  | (k', v') :: rest =>
    if k' = k then rest else (k', v') :: deleteS rest k

/-- `data.values()` in insertion order. -/
def valuesS (st : Store) : List StoredPatient := st.map Prod.snd

/-- Python `str.strip()` on the character list: drop leading and trailing
whitespace. -/
def pyStrip (l : List Char) : List Char :=
  ((l.dropWhile Char.isWhitespace).reverse.dropWhile Char.isWhitespace).reverse

/-- `patient_id.strip().upper()` — the id normalization used by the
get-by-id and delete handlers. -/
def normalizeId (s : String) : String :=
  String.mk ((pyStrip s.data).map Char.toUpper)

/-- Python's `round` to 2 decimal places (half-to-even at ties), on exact
rationals. -/
def pyRound2 (q : ℚ) : ℚ :=
  let s : ℚ := q * 100
  let fl : ℤ := ⌊s⌋
  let n : ℤ :=
    if s - fl < 1 / 2 then fl
    else if (1 : ℚ) / 2 < s - fl then fl + 1
    else if fl % 2 = 0 then fl else fl + 1
  (n : ℚ) / 100

/-- A fully validated `Patient` model instance (the pydantic `Patient`
class after successful validation). -/
structure Patient where
  id : String
  name : String
  city : String
  age : Int
  gender : String
  height : ℚ
  weight : ℚ
deriving Repr, DecidableEq

/-- The allowed `gender` literals. -/
def validGenders : List String := ["male", "female", "others"]

/-- The field constraints of the `Patient` schema: name 2–50 chars,
city 2–100 chars, age > 0, gender in the enum, height > 0, weight > 0. -/
def Patient.validate (p : Patient) : Bool :=
  decide (2 ≤ p.name.length) && decide (p.name.length ≤ 50) &&
  decide (2 ≤ p.city.length) && decide (p.city.length ≤ 100) &&
  decide (0 < p.age) && validGenders.contains p.gender &&
  decide (0 < p.height) && decide (0 < p.weight)

/-- `Patient.bmi`: `round(self.weight / (self.height ** 2), 2)`. -/
def Patient.bmi (p : Patient) : ℚ :=
  pyRound2 (p.weight / p.height ^ 2)

/-- `Patient.verdict`: the `if`/`elif` chain over `self.bmi`. -/
def Patient.verdict (p : Patient) : String :=
  if p.bmi < 18.5 then "Underweight"
  else if 18.5 ≤ p.bmi ∧ p.bmi < 24.9 then "Normal weight"
  else if 25 ≤ p.bmi ∧ p.bmi < 29.9 then "Overweight"
  else "Obesity"

/-- `patient.model_dump(exclude=['id'])`.  Pydantic v2 `model_dump`
serializes `@computed_field` properties, so the dump carries `bmi` and
`verdict` alongside the six input fields; only `id` is excluded. -/
def Patient.dumpExcludeId (p : Patient) : StoredPatient :=
  { id := none
    name := some p.name
    city := some p.city
    age := some p.age
    gender := some p.gender
    height := some p.height
    weight := some p.weight
    bmi := some p.bmi
    verdict := some p.verdict }

/-- `patient.model_dump()` (no exclusion): all fields plus the computed
ones — the payload echoed in the create response. -/
def Patient.dumpFull (p : Patient) : StoredPatient :=
  { p.dumpExcludeId with id := some p.id }

/-- `Patient(**record)`: building the model from a stored JSON object.
All seven schema fields must be present and non-null and every constraint
must hold; extra keys of the object (`bmi`, `verdict`) are ignored, as
pydantic ignores unknown keyword arguments by default.  `none` is a
`ValidationError`. -/
def buildPatient (r : StoredPatient) : Option Patient :=
  match r.id, r.name, r.city, r.age, r.gender, r.height, r.weight with
  | some i, some n, some c, some a, some g, some h, some w =>
    let p : Patient := ⟨i, n, c, a, g, h, w⟩
    if p.validate then some p else none
  | _, _, _, _, _, _, _ => none

/-- The partial-update payload (`PatientUpdate`): each field is either
unset (outer `none`), explicitly `null` (`some none`), or a value
(`some (some v)`). -/
structure PatientUpdate where
  name : Option (Option String) := none
  city : Option (Option String) := none
  age : Option (Option Int) := none
  gender : Option (Option String) := none
  height : Option (Option ℚ) := none
  weight : Option (Option ℚ) := none
deriving Repr, DecidableEq

/-- One step of the merge loop `existing_patient[key] = value`, run only
for keys present in `model_dump(exclude_unset=True)`: an unset field
leaves the stored value alone, a set field (value or explicit null)
overwrites it. -/
def mergeField {α : Type} (upd : Option (Option α)) (old : Option α) : Option α :=
  match upd with
  | none => old
  | some v => v

/-- The merge of a partial payload over a stored record, followed by
`existing_patient['id'] = patient_id`. -/
def mergeUpdate (patient_id : String) (u : PatientUpdate) (r : StoredPatient) :
    StoredPatient :=
  { r with
    name := mergeField u.name r.name
    city := mergeField u.city r.city
    age := mergeField u.age r.age
    gender := mergeField u.gender r.gender
    height := mergeField u.height r.height
    weight := mergeField u.weight r.weight
    id := some patient_id }

/-- `GET /patient/{patient_id}` — normalizes the id (strip + upper), then
returns the stored record verbatim, or 404. -/
def view_patient (patient_id : String) (st : Store) :
    Except Err StoredPatient × Store :=
  let pid := normalizeId patient_id
  match lookupS st pid with
  | some r => (.ok r, st)
  | none => (.error .notFound, st)

/-- The fields `GET /sort/` accepts. -/
def validSortFields : List String := ["bmi", "weight", "height"]

/-- `x.get(sort_by, 0)` — the sort key of a record; an absent field reads
as 0.  The final catch-all is unreachable behind the field guard. -/
def sortKey (f : String) (r : StoredPatient) : ℚ :=
  if f = "bmi" then r.bmi.getD 0
  else if f = "weight" then r.weight.getD 0
  else if f = "height" then r.height.getD 0
  else 0

/-- `GET /sort/` — guards the field and the order, then stably sorts the
dict values by the requested key, reversed comparisons when
`order == "desc"` (Python `sorted` is stable in both directions). -/
def sort_patients (sort_by order : String) (st : Store) :
    Except Err (List StoredPatient) × Store :=
  if sort_by ∉ validSortFields then (.error .invalidArgument, st)
  else if order ∉ ["asc", "desc"] then (.error .invalidArgument, st)
  else
    let le : StoredPatient → StoredPatient → Bool :=
      if order = "desc" then fun a b => decide (sortKey sort_by b ≤ sortKey sort_by a)
      else fun a b => decide (sortKey sort_by a ≤ sortKey sort_by b)
    (.ok ((valuesS st).mergeSort le), st)

/-- `POST /create/` — the body has already passed `Patient` validation;
reject a duplicate id (no save), otherwise store the dump without `id`
and persist. -/
def create_patient (p : Patient) (st : Store) :
    Except Err StoredPatient × Store :=
  if containsS st p.id then (.error .conflict, st)
  else (.ok p.dumpFull, insertS st p.id p.dumpExcludeId)

/-- `PUT /edit/{patient_id}` — no id normalization; 404 when the raw id is
absent; merge the set fields over the stored record, re-attach the id,
revalidate the merged record as a full `Patient` (a failure aborts before
any save), then store the dump without `id` and persist. -/
def update_patient (patient_id : String) (u : PatientUpdate) (st : Store) :
    Except Err StoredPatient × Store :=
  match lookupS st patient_id with
  | none => (.error .notFound, st)
  | some existing =>
    match buildPatient (mergeUpdate patient_id u existing) with
    | none => (.error .validationError, st)
    | some p => (.ok p.dumpExcludeId, insertS st patient_id p.dumpExcludeId)

/-- `DELETE /delete/{patient_id}` — normalizes the id (strip + upper),
removes the record and persists, or 404. -/
def delete_patient (patient_id : String) (st : Store) :
    Except Err String × Store :=
  let pid := normalizeId patient_id
  if containsS st pid then
    (.ok "Patient deleted successfully", deleteS st pid)
  else (.error .notFound, st)

/-- The verdict step function exactly as the specification words it:
"Underweight" for bmi < 18.5, "Normal weight" for 18.5 ≤ bmi < 24.9,
"Overweight" for 25 ≤ bmi < 29.9, and "Obesity" otherwise. -/
def specVerdict (b : ℚ) : String :=
  if b < 18.5 then "Underweight"
  else if 18.5 ≤ b ∧ b < 24.9 then "Normal weight"
  else if 25 ≤ b ∧ b < 29.9 then "Overweight"
  else "Obesity"

/-! ## Association-list lemmas -/

theorem lookupS_insertS_self (st : Store) (k : String) (v : StoredPatient) :
    lookupS (insertS st k v) k = some v := by
  induction st with
  | nil => simp [insertS, lookupS]
  | cons kv rest ih =>
    obtain ⟨k', v'⟩ := kv
    by_cases h : k' = k
    · simp [insertS, h, lookupS]
    · simp [insertS, h, lookupS, ih]

theorem lookupS_insertS_ne (st : Store) (k k' : String) (v : StoredPatient)
    (h : k' ≠ k) : lookupS (insertS st k v) k' = lookupS st k' := by
  have hne : ¬ (k = k') := fun hh => h hh.symm
  induction st with
  | nil => simp [insertS, lookupS, hne]
  | cons kv rest ih =>
    obtain ⟨k₀, v₀⟩ := kv
    by_cases h0 : k₀ = k
    · subst h0
      simp [insertS, lookupS, hne]
    · simp [insertS, h0, lookupS, ih]

/-! ## Concrete fixtures -/

/-- The validated payload of the specification's scenario record. -/
def john : Patient :=
  { id := "P001", name := "John Doe", city := "NY", age := 30,
    gender := "male", height := 1.75, weight := 70 }

/-- The same payload with a lower-case id. -/
def johnLower : Patient := { john with id := "p001" }

/-- The scenario's stored record: exactly the six input fields. -/
def scenarioRec : StoredPatient :=
  { name := some "John Doe", city := some "NY", age := some 30,
    gender := some "male", height := some 1.75, weight := some 70 }

/-- The scenario store `{"P001": {...}}`. -/
def scenarioStore : Store := [("P001", scenarioRec)]

/-- The partial payload `{"age": 40}`. -/
def uAge40 : PatientUpdate := { age := some (some 40) }

/-- The partial payload `{"age": null}`. -/
def uAgeNull : PatientUpdate := { age := some none }

/-- The empty partial payload `{}`. -/
def uEmpty : PatientUpdate := {}

/-! ## Verdict step-function characterization -/

theorem specVerdict_underweight_iff (b : ℚ) :
    specVerdict b = "Underweight" ↔ b < 18.5 := by
  unfold specVerdict
  split_ifs with h1 h2 h3
  · exact iff_of_true rfl h1
  · exact iff_of_false (by decide) h1
  · exact iff_of_false (by decide) h1
  · exact iff_of_false (by decide) h1

theorem specVerdict_normal_iff (b : ℚ) :
    specVerdict b = "Normal weight" ↔ 18.5 ≤ b ∧ b < 24.9 := by
  unfold specVerdict
  split_ifs with h1 h2 h3
  · exact iff_of_false (by decide) (fun hx => absurd h1 (not_lt.mpr hx.1))
  · exact iff_of_true rfl h2
  · exact iff_of_false (by decide) h2
  · exact iff_of_false (by decide) h2

theorem specVerdict_overweight_iff (b : ℚ) :
    specVerdict b = "Overweight" ↔ 25 ≤ b ∧ b < 29.9 := by
  unfold specVerdict
  split_ifs with h1 h2 h3
  · exact iff_of_false (by decide) (fun hx => by linarith [hx.1])
  · exact iff_of_false (by decide) (fun hx => by linarith [hx.1, h2.2])
  · exact iff_of_true rfl h3
  · exact iff_of_false (by decide) h3

theorem specVerdict_obesity_iff (b : ℚ) :
    specVerdict b = "Obesity" ↔ (24.9 ≤ b ∧ b < 25) ∨ 29.9 ≤ b := by
  unfold specVerdict
  split_ifs with h1 h2 h3
  · refine iff_of_false (by decide) ?_
    rintro (⟨ha, _⟩ | ha) <;> linarith
  · refine iff_of_false (by decide) ?_
    rintro (⟨ha, _⟩ | ha) <;> linarith [h2.2]
  · refine iff_of_false (by decide) ?_
    rintro (⟨_, hb⟩ | hb) <;> linarith [h3.1, h3.2]
  · push_neg at h1 h2 h3
    refine iff_of_true rfl ?_
    have hb : 24.9 ≤ b := h2 h1
    by_cases hc : 25 ≤ b
    · exact Or.inr (h3 hc)
    · exact Or.inl ⟨hb, not_le.mp hc⟩

/-! ## Claim theorems -/

/-- C5: for every valid record (height > 0, weight > 0), `bmi` equals
`round(weight / height^2, 2)` and `verdict` is exactly the documented step
function of `bmi`: "Underweight" below 18.5, "Normal weight" on
[18.5, 24.9), "Overweight" on [25, 29.9), and "Obesity" otherwise, so a
bmi in [24.9, 25) lands in the catch-all "Obesity" branch. -/
theorem C5_bmi_verdict_step (p : Patient) (_hh : 0 < p.height) (_hw : 0 < p.weight) :
    p.bmi = pyRound2 (p.weight / p.height ^ 2) ∧
    p.verdict = specVerdict p.bmi ∧
    (p.verdict = "Underweight" ↔ p.bmi < 18.5) ∧
    (p.verdict = "Normal weight" ↔ 18.5 ≤ p.bmi ∧ p.bmi < 24.9) ∧
    (p.verdict = "Overweight" ↔ 25 ≤ p.bmi ∧ p.bmi < 29.9) ∧
    (p.verdict = "Obesity" ↔ (24.9 ≤ p.bmi ∧ p.bmi < 25) ∨ 29.9 ≤ p.bmi) := by
  have hv : p.verdict = specVerdict p.bmi := rfl
  refine ⟨rfl, hv, ?_, ?_, ?_, ?_⟩ <;> rw [hv]
  · exact specVerdict_underweight_iff p.bmi
  · exact specVerdict_normal_iff p.bmi
  · exact specVerdict_overweight_iff p.bmi
  · exact specVerdict_obesity_iff p.bmi

/-- Witness for C5 at the scenario record (height 1.75 m, weight 70 kg). -/
theorem C5_bmi_verdict_step_witness :
    (0 : ℚ) < john.height ∧ (0 : ℚ) < john.weight ∧
    john.bmi = pyRound2 (john.weight / john.height ^ 2) ∧
    john.verdict = specVerdict john.bmi ∧
    (john.verdict = "Underweight" ↔ john.bmi < 18.5) ∧
    (john.verdict = "Normal weight" ↔ 18.5 ≤ john.bmi ∧ john.bmi < 24.9) ∧
    (john.verdict = "Overweight" ↔ 25 ≤ john.bmi ∧ john.bmi < 29.9) ∧
    (john.verdict = "Obesity" ↔ (24.9 ≤ john.bmi ∧ john.bmi < 25) ∨ 29.9 ≤ john.bmi) := by
  have h1 : (0 : ℚ) < john.height := by norm_num [john]
  have h2 : (0 : ℚ) < john.weight := by norm_num [john]
  obtain ⟨a, b, c, d, e, f⟩ := C5_bmi_verdict_step john h1 h2
  exact ⟨h1, h2, a, b, c, d, e, f⟩

/-- C2 counterexample: with the scenario store, `GET /patient/p001`
succeeds but the returned record is the stored object itself, whose `bmi`
and `verdict` keys are absent — the handler does not attach computed
fields at read time, contradicting the claimed `bmi = 22.86` in the
response. -/
theorem C2_counterexample :
    (view_patient "p001" scenarioStore).1 = .ok scenarioRec ∧
    scenarioRec.bmi = none ∧ scenarioRec.verdict = none :=
  ⟨rfl, rfl, rfl⟩

/-- C2 (amended): with the scenario store, `GET /patient/p001` succeeds
and returns the stored record verbatim — the six input fields, with no
`bmi`/`verdict` keys since none are stored and none are computed at read
time; after `DELETE /delete/P001`, `GET /patient/P001` fails with
NotFound. -/
theorem C2_scenario :
    (view_patient "p001" scenarioStore).1 = .ok scenarioRec ∧
    scenarioRec.name = some "John Doe" ∧ scenarioRec.city = some "NY" ∧
    scenarioRec.age = some 30 ∧ scenarioRec.gender = some "male" ∧
    scenarioRec.height = some 1.75 ∧ scenarioRec.weight = some 70 ∧
    scenarioRec.bmi = none ∧ scenarioRec.verdict = none ∧
    (delete_patient "P001" scenarioStore).1 = .ok "Patient deleted successfully" ∧
    (view_patient "P001" (delete_patient "P001" scenarioStore).2).1 =
      .error .notFound :=
  ⟨rfl, rfl, rfl, rfl, rfl, rfl, rfl, rfl, rfl, rfl, rfl⟩

/-- C1 counterexample: creating the scenario payload on an empty store
persists a value that carries the computed fields — `bmi = 22.86` and
`verdict = "Normal weight"` are stored under the id, contradicting
"exactly the six input fields". -/
theorem C1_counterexample :
    lookupS (create_patient john []).2 "P001" = some john.dumpExcludeId ∧
    john.dumpExcludeId.bmi = some 22.86 ∧
    john.dumpExcludeId.verdict = some "Normal weight" := by
  refine ⟨rfl, ?_, ?_⟩
  · show some john.bmi = some 22.86
    norm_num [Patient.bmi, pyRound2, john]
  · show some john.verdict = some "Normal weight"
    norm_num [Patient.verdict, Patient.bmi, pyRound2, john]

/-- C1 (amended): for every successful create or update, the value stored
under the patient's id is the pydantic dump without `id`: the six input
fields plus the computed `bmi` and `verdict` (computed fields are written
to the store at write time; the `id` key is never stored). -/
theorem C1_store_layout :
    (∀ (p : Patient) (st st' : Store) (r : StoredPatient),
      create_patient p st = (.ok r, st') →
      lookupS st' p.id = some p.dumpExcludeId ∧
      p.dumpExcludeId.id = none ∧
      p.dumpExcludeId.name = some p.name ∧ p.dumpExcludeId.city = some p.city ∧
      p.dumpExcludeId.age = some p.age ∧ p.dumpExcludeId.gender = some p.gender ∧
      p.dumpExcludeId.height = some p.height ∧ p.dumpExcludeId.weight = some p.weight ∧
      p.dumpExcludeId.bmi = some p.bmi ∧ p.dumpExcludeId.verdict = some p.verdict) ∧
    (∀ (pid : String) (u : PatientUpdate) (st st' : Store) (r : StoredPatient),
      update_patient pid u st = (.ok r, st') →
      ∃ p : Patient, r = p.dumpExcludeId ∧ lookupS st' pid = some r ∧
        r.id = none ∧ r.name = some p.name ∧ r.city = some p.city ∧
        r.age = some p.age ∧ r.gender = some p.gender ∧
        r.height = some p.height ∧ r.weight = some p.weight ∧
        r.bmi = some p.bmi ∧ r.verdict = some p.verdict) := by
  constructor
  · intro p st st' r hEq
    by_cases hc : containsS st p.id
    · simp [create_patient, hc] at hEq
    · simp only [create_patient, hc, Bool.false_eq_true, if_false, Prod.mk.injEq] at hEq
      obtain ⟨-, h2⟩ := hEq
      subst h2
      exact ⟨lookupS_insertS_self st p.id p.dumpExcludeId,
        rfl, rfl, rfl, rfl, rfl, rfl, rfl, rfl, rfl⟩
  · intro pid u st st' r hEq
    cases hlk : lookupS st pid with
    | none => simp [update_patient, hlk] at hEq
    | some ex =>
      cases hb : buildPatient (mergeUpdate pid u ex) with
      | none => simp [update_patient, hlk, hb] at hEq
      | some p =>
        simp only [update_patient, hlk, hb, Prod.mk.injEq, Except.ok.injEq] at hEq
        obtain ⟨h1, h2⟩ := hEq
        subst h1
        subst h2
        exact ⟨p, rfl, lookupS_insertS_self st pid p.dumpExcludeId,
          rfl, rfl, rfl, rfl, rfl, rfl, rfl, rfl, rfl⟩

/-- The scenario payload updated to age 40 (the merged record of the
`{"age": 40}` update). -/
def john40 : Patient := { john with age := 40 }

/-- Witness for C1 at concrete inputs: a create of the scenario payload on
the empty store, and an `{"age": 40}` update on the scenario store. -/
theorem C1_store_layout_witness :
    (lookupS (insertS [] john.id john.dumpExcludeId) john.id =
      some john.dumpExcludeId) ∧
    (∃ p : Patient, john40.dumpExcludeId = p.dumpExcludeId ∧
      lookupS (insertS scenarioStore "P001" john40.dumpExcludeId) "P001" =
        some john40.dumpExcludeId) := by
  have h := C1_store_layout
  have hval : Patient.validate ⟨"P001", "John Doe", "NY", 40, "male", 1.75, 70⟩ = true := by
    simp only [Patient.validate]
    norm_num
    decide
  have hbuild : buildPatient (mergeUpdate "P001" uAge40 scenarioRec) =
      some john40 := by
    simp only [mergeUpdate, mergeField, uAge40, scenarioRec, buildPatient]
    simp only [hval, if_true]
    simp [john40, john]
  have hstep : update_patient "P001" uAge40 scenarioStore =
      match buildPatient (mergeUpdate "P001" uAge40 scenarioRec) with
      | none => (.error .validationError, scenarioStore)
      | some p => (.ok p.dumpExcludeId, insertS scenarioStore "P001" p.dumpExcludeId) := rfl
  have hEq : update_patient "P001" uAge40 scenarioStore =
      (.ok john40.dumpExcludeId, insertS scenarioStore "P001" john40.dumpExcludeId) := by
    rw [hstep, hbuild]
  refine ⟨(h.1 john [] _ john.dumpFull rfl).1, ?_⟩
  obtain ⟨p, hp1, hp2, -⟩ := h.2 "P001" uAge40 scenarioStore _ _ hEq
  exact ⟨p, hp1, hp2⟩

/-- C3 counterexample: the store holds key "P001" (the normalized form of
"p001"), yet an update addressed as "p001" fails with NotFound — the
update handler indexes the collection with the raw id, not the normalized
one. -/
theorem C3_counterexample :
    normalizeId "p001" = "P001" ∧
    containsS scenarioStore "P001" = true ∧
    (update_patient "p001" uEmpty scenarioStore).1 = .error .notFound := by
  exact ⟨by decide, rfl, rfl⟩

/-- C3 (amended): get-by-id and delete normalize the caller-supplied id
(strip then upper-case) before indexing the collection, but update indexes
with the id exactly as supplied. -/
theorem C3_lookup_normalization (st : Store) (pid : String) (u : PatientUpdate)
    (r : StoredPatient) :
    ((view_patient pid st).1 = .ok r ↔ lookupS st (normalizeId pid) = some r) ∧
    ((view_patient pid st).1 = .error .notFound ↔
      lookupS st (normalizeId pid) = none) ∧
    ((delete_patient pid st).1 = .error .notFound ↔
      containsS st (normalizeId pid) = false) ∧
    (containsS st (normalizeId pid) = true →
      (delete_patient pid st).2 = deleteS st (normalizeId pid)) ∧
    ((update_patient pid u st).1 = .error .notFound ↔ lookupS st pid = none) := by
  refine ⟨?_, ?_, ?_, ?_, ?_⟩
  · unfold view_patient
    cases hl : lookupS st (normalizeId pid) <;> simp [hl]
  · unfold view_patient
    cases hl : lookupS st (normalizeId pid) <;> simp [hl]
  · unfold delete_patient
    cases hc : containsS st (normalizeId pid) <;> simp [hc]
  · intro hc
    unfold delete_patient
    simp [hc]
  · unfold update_patient
    cases hl : lookupS st pid with
    | none => simp [hl]
    | some ex =>
      cases hb : buildPatient (mergeUpdate pid u ex) <;> simp [hl, hb]

/-- Witness for C3 at concrete inputs: a whitespace-and-case-mangled id is
still served by get-by-id and delete, and the update NotFound test is
exactly a raw-id lookup failure. -/
theorem C3_lookup_normalization_witness :
    (view_patient " p001 " scenarioStore).1 = .ok scenarioRec ∧
    (delete_patient " p001 " scenarioStore).2 =
      deleteS scenarioStore (normalizeId " p001 ") ∧
    ((update_patient " p001 " uEmpty scenarioStore).1 = .error .notFound ↔
      lookupS scenarioStore " p001 " = none) := by
  have h := C3_lookup_normalization scenarioStore " p001 " uEmpty scenarioRec
  exact ⟨h.1.mpr rfl, h.2.2.2.1 rfl, h.2.2.2.2⟩

/-- C4 counterexample: creating a valid payload whose id is lower-case
"p001" succeeds, but fetching it afterwards — whether by "p001" or by
"P001" — fails with NotFound: create stores the raw id while get-by-id
upper-cases before lookup, so the claimed round-trip breaks for
non-normalized ids. -/
theorem C4_counterexample :
    (create_patient johnLower []).1 = .ok johnLower.dumpFull ∧
    (view_patient "p001" (create_patient johnLower []).2).1 = .error .notFound ∧
    (view_patient "P001" (create_patient johnLower []).2).1 = .error .notFound :=
  ⟨rfl, rfl, rfl⟩

/-- C4 (amended): for every valid payload whose id is already in
normalized form (trimmed and upper-case) and not yet present, create
followed by get-by-id with that id returns the stored record, whose six
input fields are exactly the supplied values. -/
theorem C4_roundtrip (p : Patient) (st : Store)
    (hnorm : normalizeId p.id = p.id) (habs : containsS st p.id = false) :
    (view_patient p.id (create_patient p st).2).1 = .ok p.dumpExcludeId ∧
    p.dumpExcludeId.name = some p.name ∧ p.dumpExcludeId.city = some p.city ∧
    p.dumpExcludeId.age = some p.age ∧ p.dumpExcludeId.gender = some p.gender ∧
    p.dumpExcludeId.height = some p.height ∧
    p.dumpExcludeId.weight = some p.weight := by
  have h2 : (create_patient p st).2 = insertS st p.id p.dumpExcludeId := by
    simp [create_patient, habs]
  refine ⟨?_, rfl, rfl, rfl, rfl, rfl, rfl⟩
  rw [h2]
  unfold view_patient
  rw [hnorm]
  simp [lookupS_insertS_self]

/-- Witness for C4 at the scenario payload (id "P001", empty store). -/
theorem C4_roundtrip_witness :
    normalizeId john.id = john.id ∧ containsS [] john.id = false ∧
    (view_patient john.id (create_patient john []).2).1 = .ok john.dumpExcludeId :=
  ⟨by decide, rfl, (C4_roundtrip john [] (by decide) rfl).1⟩

/-- C6: writes are atomic with respect to errors — create with an already
present id fails with Conflict and returns the persisted collection
untouched (so the existing record is untouched), and an update that fails
(NotFound or revalidation of the merged record) leaves the persisted
collection exactly as it was. -/
theorem C6_write_atomicity (p : Patient) (st : Store) (pid : String)
    (u : PatientUpdate) :
    (containsS st p.id = true → create_patient p st = (.error .conflict, st)) ∧
    (∀ e : Err, (update_patient pid u st).1 = .error e →
      (update_patient pid u st).2 = st) := by
  constructor
  · intro hc
    simp [create_patient, hc]
  · intro e he
    cases hl : lookupS st pid with
    | none => simp [update_patient, hl]
    | some ex =>
      cases hb : buildPatient (mergeUpdate pid u ex) with
      | none => simp [update_patient, hl, hb]
      | some q =>
        simp only [update_patient, hl, hb] at he
        exact absurd he (by simp)

/-- Witness for C6: a duplicate create and a failing (explicit-null)
update on the scenario store both leave it unchanged. -/
theorem C6_write_atomicity_witness :
    create_patient john scenarioStore = (.error .conflict, scenarioStore) ∧
    (update_patient "P001" uAgeNull scenarioStore).2 = scenarioStore := by
  have h := C6_write_atomicity john scenarioStore "P001" uAgeNull
  exact ⟨h.1 rfl, h.2 .validationError rfl⟩

/-- C7: on an existing fully valid record, an update whose payload is only
`{"age": 40}` persists a record whose age is 40, whose other five input
fields equal the stored ones, whose bmi and verdict are recomputed from
the merged record, and every other record of the collection is unchanged. -/
theorem C7_update_age_frame (st : Store) (pid : String) (r : StoredPatient)
    (n c : String) (a : Int) (g : String) (hq wq : ℚ)
    (hlk : lookupS st pid = some r)
    (hn : r.name = some n) (hcy : r.city = some c) (_ha : r.age = some a)
    (hg : r.gender = some g) (hh : r.height = some hq) (hw : r.weight = some wq)
    (hv : Patient.validate ⟨pid, n, c, a, g, hq, wq⟩ = true) :
    ∃ v : StoredPatient,
      update_patient pid uAge40 st = (.ok v, insertS st pid v) ∧
      lookupS (update_patient pid uAge40 st).2 pid = some v ∧
      v.age = some 40 ∧ v.name = r.name ∧ v.city = r.city ∧
      v.gender = r.gender ∧ v.height = r.height ∧ v.weight = r.weight ∧
      v.bmi = some (Patient.bmi ⟨pid, n, c, 40, g, hq, wq⟩) ∧
      v.verdict = some (Patient.verdict ⟨pid, n, c, 40, g, hq, wq⟩) ∧
      (∀ k, k ≠ pid → lookupS (update_patient pid uAge40 st).2 k = lookupS st k) := by
  have hv40 : Patient.validate ⟨pid, n, c, 40, g, hq, wq⟩ = true := by
    simp only [Patient.validate, Bool.and_eq_true, decide_eq_true_eq] at hv ⊢
    obtain ⟨⟨⟨⟨⟨⟨⟨h1, h2⟩, h3⟩, h4⟩, h5⟩, h6⟩, h7⟩, h8⟩ := hv
    exact ⟨⟨⟨⟨⟨⟨⟨h1, h2⟩, h3⟩, h4⟩, by norm_num⟩, h6⟩, h7⟩, h8⟩
  have hbuild : buildPatient (mergeUpdate pid uAge40 r) =
      some ⟨pid, n, c, 40, g, hq, wq⟩ := by
    simp only [mergeUpdate, mergeField, uAge40, hn, hcy, hg, hh, hw, buildPatient]
    simp [hv40]
  have hstep : update_patient pid uAge40 st =
      match buildPatient (mergeUpdate pid uAge40 r) with
      | none => (.error .validationError, st)
      | some p => (.ok p.dumpExcludeId, insertS st pid p.dumpExcludeId) := by
    unfold update_patient
    rw [hlk]
  have hEq : update_patient pid uAge40 st =
      (.ok (Patient.dumpExcludeId ⟨pid, n, c, 40, g, hq, wq⟩),
        insertS st pid (Patient.dumpExcludeId ⟨pid, n, c, 40, g, hq, wq⟩)) := by
    rw [hstep, hbuild]
  refine ⟨Patient.dumpExcludeId ⟨pid, n, c, 40, g, hq, wq⟩, hEq, ?_, rfl,
    ?_, ?_, ?_, ?_, ?_, rfl, rfl, ?_⟩
  · rw [hEq]
    exact lookupS_insertS_self st pid _
  · exact hn.symm
  · exact hcy.symm
  · exact hg.symm
  · exact hh.symm
  · exact hw.symm
  · intro k hk
    rw [hEq]
    exact lookupS_insertS_ne st pid k _ hk

/-- Witness for C7 at the scenario store. -/
theorem C7_update_age_frame_witness :
    ∃ v : StoredPatient,
      update_patient "P001" uAge40 scenarioStore = (.ok v, insertS scenarioStore "P001" v) ∧
      lookupS (update_patient "P001" uAge40 scenarioStore).2 "P001" = some v ∧
      v.age = some 40 ∧ v.name = scenarioRec.name ∧ v.city = scenarioRec.city ∧
      v.gender = scenarioRec.gender ∧ v.height = scenarioRec.height ∧
      v.weight = scenarioRec.weight ∧
      v.bmi = some (Patient.bmi ⟨"P001", "John Doe", "NY", 40, "male", 1.75, 70⟩) ∧
      v.verdict = some (Patient.verdict ⟨"P001", "John Doe", "NY", 40, "male", 1.75, 70⟩) ∧
      (∀ k, k ≠ "P001" →
        lookupS (update_patient "P001" uAge40 scenarioStore).2 k =
          lookupS scenarioStore k) :=
  C7_update_age_frame scenarioStore "P001" scenarioRec "John Doe" "NY" 30 "male"
    1.75 70 rfl rfl rfl rfl rfl rfl rfl
    (by simp only [Patient.validate]; norm_num; decide)

/-- C10: an explicitly null field in an update payload is kept by the
exclude-unset dump and merged over the stored value, so the full
revalidation of the merged record fails with a ValidationError and the
persisted collection is unchanged — unlike the same update with the field
absent, which succeeds on a valid record. -/
theorem C10_null_vs_absent (st : Store) (pid : String) (r : StoredPatient)
    (n c : String) (a : Int) (g : String) (hq wq : ℚ)
    (hlk : lookupS st pid = some r)
    (hn : r.name = some n) (hcy : r.city = some c) (ha : r.age = some a)
    (hg : r.gender = some g) (hh : r.height = some hq) (hw : r.weight = some wq)
    (hv : Patient.validate ⟨pid, n, c, a, g, hq, wq⟩ = true) :
    update_patient pid uAgeNull st = (.error .validationError, st) ∧
    (update_patient pid uEmpty st).1 =
      .ok (Patient.dumpExcludeId ⟨pid, n, c, a, g, hq, wq⟩) := by
  constructor
  · have hbuild : buildPatient (mergeUpdate pid uAgeNull r) = none := by
      simp [mergeUpdate, mergeField, uAgeNull, hn, hcy, hg, hh, hw, buildPatient]
    have hstep : update_patient pid uAgeNull st =
        match buildPatient (mergeUpdate pid uAgeNull r) with
        | none => (.error .validationError, st)
        | some p => (.ok p.dumpExcludeId, insertS st pid p.dumpExcludeId) := by
      unfold update_patient
      rw [hlk]
    rw [hstep, hbuild]
  · have hbuild : buildPatient (mergeUpdate pid uEmpty r) =
        some ⟨pid, n, c, a, g, hq, wq⟩ := by
      simp only [mergeUpdate, mergeField, uEmpty, hn, hcy, ha, hg, hh, hw, buildPatient]
      simp [hv]
    have hstep : update_patient pid uEmpty st =
        match buildPatient (mergeUpdate pid uEmpty r) with
        | none => (.error .validationError, st)
        | some p => (.ok p.dumpExcludeId, insertS st pid p.dumpExcludeId) := by
      unfold update_patient
      rw [hlk]
    rw [hstep, hbuild]

/-- Witness for C10 at the scenario store: `{"age": null}` is rejected and
persists nothing, `{}` succeeds. -/
theorem C10_null_vs_absent_witness :
    update_patient "P001" uAgeNull scenarioStore =
      (.error .validationError, scenarioStore) ∧
    (update_patient "P001" uEmpty scenarioStore).1 =
      .ok (Patient.dumpExcludeId ⟨"P001", "John Doe", "NY", 30, "male", 1.75, 70⟩) :=
  C10_null_vs_absent scenarioStore "P001" scenarioRec "John Doe" "NY" 30 "male"
    1.75 70 rfl rfl rfl rfl rfl rfl rfl
    (by simp only [Patient.validate]; norm_num; decide)

/-- C8: for every collection and every supported field and order, sort
succeeds without touching storage and returns all records as a list,
stably sorted by the record's value at that field (an absent field reads
as 0 through `sortKey`): ascending for "asc", descending for "desc", and
any run of records with equal keys keeps its original relative order
(every key-equal sublist of the input survives as a sublist of the
output). -/
theorem C8_sort_contract (st : Store) (f ord : String)
    (hf : f ∈ validSortFields) (ho : ord ∈ ["asc", "desc"]) :
    ∃ l : List StoredPatient,
      sort_patients f ord st = (.ok l, st) ∧
      l.Perm (valuesS st) ∧
      (ord = "asc" → l.Pairwise (fun a b => sortKey f a ≤ sortKey f b)) ∧
      (ord = "desc" → l.Pairwise (fun a b => sortKey f b ≤ sortKey f a)) ∧
      (∀ c : List StoredPatient, List.Sublist c (valuesS st) →
        c.Pairwise (fun a b => sortKey f a = sortKey f b) → List.Sublist c l) := by
  have hf' : ¬ (f ∉ validSortFields) := not_not.mpr hf
  have ho' : ¬ (ord ∉ (["asc", "desc"] : List String)) := not_not.mpr ho
  rcases (by simpa using ho : ord = "asc" ∨ ord = "desc") with h | h
  · subst h
    set le := fun a b : StoredPatient => decide (sortKey f a ≤ sortKey f b) with hle
    have htrans : ∀ a b c : StoredPatient, le a b → le b c → le a c := by
      intro a b c hab hbc
      simp only [hle, decide_eq_true_eq] at hab hbc ⊢
      exact le_trans hab hbc
    have htotal : ∀ a b : StoredPatient, le a b || le b a := by
      intro a b
      simp only [hle, Bool.or_eq_true, decide_eq_true_eq]
      exact le_total _ _
    refine ⟨(valuesS st).mergeSort le, ?_, List.mergeSort_perm _ _, ?_, ?_, ?_⟩
    · simp [sort_patients, hf', hle]
    · intro _
      exact (List.sorted_mergeSort htrans htotal (valuesS st)).imp
        (by simp only [hle, decide_eq_true_eq]; exact fun h => h)
    · intro h
      exact absurd h (by decide)
    · intro c hsub hpair
      refine List.sublist_mergeSort htrans htotal ?_ hsub
      exact hpair.imp (fun h => by simp only [hle, decide_eq_true_eq, h, le_refl])
  · subst h
    set le := fun a b : StoredPatient => decide (sortKey f b ≤ sortKey f a) with hle
    have htrans : ∀ a b c : StoredPatient, le a b → le b c → le a c := by
      intro a b c hab hbc
      simp only [hle, decide_eq_true_eq] at hab hbc ⊢
      exact le_trans hbc hab
    have htotal : ∀ a b : StoredPatient, le a b || le b a := by
      intro a b
      simp only [hle, Bool.or_eq_true, decide_eq_true_eq]
      exact le_total _ _
    refine ⟨(valuesS st).mergeSort le, ?_, List.mergeSort_perm _ _, ?_, ?_, ?_⟩
    · simp [sort_patients, hf', hle]
    · intro h
      exact absurd h (by decide)
    · intro _
      exact (List.sorted_mergeSort htrans htotal (valuesS st)).imp
        (by simp only [hle, decide_eq_true_eq]; exact fun h => h)
    · intro c hsub hpair
      refine List.sublist_mergeSort htrans htotal ?_ hsub
      exact hpair.imp (fun h => by simp only [hle, decide_eq_true_eq, h, le_refl])

/-- Witness for C8 at the scenario store, sorting by bmi ascending. -/
theorem C8_sort_contract_witness :
    ∃ l : List StoredPatient,
      sort_patients "bmi" "asc" scenarioStore = (.ok l, scenarioStore) ∧
      l.Perm (valuesS scenarioStore) ∧
      ("asc" = "asc" → l.Pairwise (fun a b => sortKey "bmi" a ≤ sortKey "bmi" b)) ∧
      ("asc" = "desc" → l.Pairwise (fun a b => sortKey "bmi" b ≤ sortKey "bmi" a)) ∧
      (∀ c : List StoredPatient, List.Sublist c (valuesS scenarioStore) →
        c.Pairwise (fun a b => sortKey "bmi" a = sortKey "bmi" b) →
        List.Sublist c l) :=
  C8_sort_contract scenarioStore "bmi" "asc" (by decide) (by decide)

/-- C9: sort with an unsupported field or an unsupported order fails with
InvalidArgument and the persisted collection is returned unchanged (the
handler raises before any storage write). -/
theorem C9_sort_invalid (st : Store) (f ord : String)
    (h : f ∉ validSortFields ∨ ord ∉ (["asc", "desc"] : List String)) :
    sort_patients f ord st = (.error .invalidArgument, st) := by
  rcases h with h | h
  · unfold sort_patients
    rw [if_pos h]
  · by_cases hf : f ∉ validSortFields
    · unfold sort_patients
      rw [if_pos hf]
    · unfold sort_patients
      rw [if_neg hf, if_pos h]

/-- Witness for C9: the unsupported field "name" and the unsupported order
"up" are both rejected on the scenario store. -/
theorem C9_sort_invalid_witness :
    sort_patients "name" "asc" scenarioStore =
      (.error .invalidArgument, scenarioStore) ∧
    sort_patients "bmi" "up" scenarioStore =
      (.error .invalidArgument, scenarioStore) :=
  ⟨C9_sort_invalid scenarioStore "name" "asc" (Or.inl (by decide)),
   C9_sort_invalid scenarioStore "bmi" "up" (Or.inr (by decide))⟩
